import Mathlib

/-!
Verification of the plotting utilities in `functionalities/plot.py`.

The module is shallowly embedded: each matplotlib drawing call is modelled
by recording the data it would draw into a pure figure description, and
every Python run-time failure that the code can hit (list index out of
range, matplotlib's "x and y must have same first dimension" check on
`Axes.plot`, tuple-indexing a one-dimensional axes array, `GridSpec`'s
requirement of a positive row count) is modelled by returning `none`.
Metric values are represented as rationals; the code performs no
arithmetic on them beyond carrying them around, so this is faithful.
-/

namespace PlotPy

/-- One plotted line, as produced by a single `Axes.plot(xs, ys, ...)` call:
the x-values, the y-values, and the optional legend label. -/
structure Line where
  xs : List ℚ
  ys : List ℚ
  label : Option String
deriving DecidableEq

/-- One scatter point, as produced by `Axes.scatter(x, y, ...)`. -/
structure Marker where
  x : ℚ
  y : ℚ
deriving DecidableEq

/-- One subplot panel: its lines, scatter markers, axis labels, title, and
whether `grid(True)` and `legend()` were called on it. -/
structure Panel where
  lines : List Line
  markers : List Marker
  xlabel : String
  ylabel : String
  title : String
  showGrid : Bool
  showLegend : Bool
deriving DecidableEq

/-- A figure as saved to disk: the grid of panels (rows of panels), the
figure size, the output directory (created if absent) and the file name. -/
structure SavedFig where
  rows : List (List Panel)
  figsize : ℚ × ℚ
  dir : String
  file : String
deriving DecidableEq

/-- `Axes.plot(xs, ys)`: matplotlib raises `ValueError` when the two lists
have different lengths ("x and y must have same first dimension"). -/
def mkLine (xs ys : List ℚ) (label : Option String) : Option Line :=
  if xs.length = ys.length then some ⟨xs, ys, label⟩ else none

/-- `list(range(1, n + 1))`, the epoch axis used throughout `plot`. -/
def epochList (n : Nat) : List ℚ :=
  (List.range' 1 n).map (fun k : Nat => (k : ℚ))

/-- Run a fallible computation on every element of a list, in order,
stopping at the first failure (the behaviour of a Python `for` loop whose
body can raise). -/
def optionTraverse {α β : Type} (f : α → Option β) : List α → Option (List β)
  | [] => some []
  | a :: as => do
    let b ← f a
    let bs ← optionTraverse f as
    pure (b :: bs)

/-- Loop body of the two overlay-mode loops in `plot`
(plot.py lines 33-35 and 47-49):
`epoch_lst = list(range(1, len(seq_lst[i]) + 1))` followed by
`ax[k].plot(epoch_lst, seq_lst[i], label=title_lst[i])`.
Indexing `seq_lst[i]` or `title_lst[i]` out of range raises. -/
def overlayLine (title_lst : List String) (seq_lst : List (List ℚ)) (i : Nat) :
    Option Line := do
  let s ← seq_lst[i]?
  let t ← title_lst[i]?
  mkLine (epochList s.length) s (some t)

/-- The `scatter` guard of plot.py lines 76-77: the point
`(best_epoch[i], max_accuracy[i])` is drawn only when both arguments are
not `None`; indexing either list out of range raises. -/
def gridMarkers (best_epoch max_accuracy : Option (List ℚ)) (i : Nat) :
    Option (List Marker) :=
  match best_epoch, max_accuracy with
  | some bel, some mal => do
    let x ← bel[i]?
    let y ← mal[i]?
    pure [⟨x, y⟩]
  | _, _ => some []

/-- Loop body of the grid-mode loop in `plot` (plot.py lines 64-81):
builds row `i`, a loss panel and an accuracy panel. Both panels are
plotted against `epoch_lst = list(range(1, len(loss_lst[i]) + 1))`. -/
def gridRow (title_lst : List String) (loss_lst accuracy_lst : List (List ℚ))
    (max_accuracy best_epoch : Option (List ℚ)) (i : Nat) :
    Option (List Panel) := do
  let ls ← loss_lst[i]?
  let epoch_lst := epochList ls.length
  let lossLine ← mkLine epoch_lst ls none
  let t ← title_lst[i]?
  let ai ← accuracy_lst[i]?
  let accLine ← mkLine epoch_lst ai none
  let mks ← gridMarkers best_epoch max_accuracy i
  pure [⟨[lossLine], [], "Epoch", "Loss", "Loss of " ++ t, true, false⟩,
        ⟨[accLine], mks, "Epoch", "Accuracy", "Accuracy of " ++ t, true, false⟩]

/-- The overlay (`all_in_one=True`) branch of `plot` (plot.py lines
29-58): two shared panels, the first with every loss sequence, the second
with every accuracy sequence, each line labeled from `title_lst`. Both
loops run `num_train_sessions = len(loss_lst)` times. -/
def overlayRows (title_lst : List String) (loss_lst accuracy_lst : List (List ℚ))
    (history : Bool) : Option (List (List Panel)) := do
  let num := loss_lst.length
  let lossLines ← optionTraverse (overlayLine title_lst loss_lst) (List.range num)
  let accLines ← optionTraverse (overlayLine title_lst accuracy_lst) (List.range num)
  pure [[⟨lossLines, [], "Epoch", "Loss",
          if history then "History of Loss" else "Comparision of Losses",
          true, true⟩,
         ⟨accLines, [], "Epoch", "Accuracy",
          if history then "History of Accuracies" else "Comparision of Accuracies",
          true, true⟩]]

/-- The grid (`all_in_one=False`) branch of `plot` (plot.py lines 62-81):
one row of two panels per training session. With fewer than 2 sessions it
fails: `plt.subplots(1, 2)` returns a one-dimensional axes array so
`ax[i, 0]` raises `IndexError`, and `plt.subplots(0, 2)` is rejected by
`GridSpec` (the row count must be positive). -/
def gridRows (title_lst : List String) (loss_lst accuracy_lst : List (List ℚ))
    (max_accuracy best_epoch : Option (List ℚ)) : Option (List (List Panel)) :=
  if loss_lst.length < 2 then none
  else
    optionTraverse
      (gridRow title_lst loss_lst accuracy_lst max_accuracy best_epoch)
      (List.range loss_lst.length)

/-- `plot` (plot.py lines 7-91). Parameters in source order; the source's
defaults are `figsize=(15, 10)`, `all_in_one=False`, `max_accuracy=None`,
`best_epoch=None`, `history=False` (callers here pass them explicitly).
The figure is saved as `<filename>.png` under `./plot` (created if
absent), with `'_comparison'` appended to `filename` first in overlay
mode (line 60). -/
def plot (title_lst : List String) (loss_lst accuracy_lst : List (List ℚ))
    (filename : String) (figsize : ℚ × ℚ) (all_in_one : Bool)
    (max_accuracy best_epoch : Option (List ℚ)) (history : Bool) :
    Option SavedFig :=
  match all_in_one with
  | true => do
    let rows ← overlayRows title_lst loss_lst accuracy_lst history
    pure ⟨rows, figsize, "./plot", filename ++ "_comparison" ++ ".png"⟩
  | false => do
    let rows ← gridRows title_lst loss_lst accuracy_lst max_accuracy best_epoch
    pure ⟨rows, figsize, "./plot", filename ++ ".png"⟩

/-- The four metric-sequence collections stored under the key
`"semi-supervised"`: per training-set size, the semi-supervised loss and
accuracy logs and the supervised-NIN loss and accuracy logs. -/
structure SemiData where
  semi_loss : List (List ℚ)
  semi_acc : List (List ℚ)
  semi_sup_loss : List (List ℚ)
  semi_sup_acc : List (List ℚ)
deriving DecidableEq

/-- The six metric sequences stored under an `"n_block_net"` key: the
rotation-task loss and accuracy logs (one sequence each) and the
non-linear-classifier and convolutional-classifier logs (one sequence per
ConvBlock, so a list of sequences each). -/
structure BlockNetData where
  rot_loss : List ℚ
  rot_acc : List ℚ
  clf_loss : List (List ℚ)
  clf_acc : List (List ℚ)
  conv_loss : List (List ℚ)
  conv_acc : List (List ℚ)
deriving DecidableEq

/-- Modelled from the spec: `functionalities.filemanager.load_variable`
(the Metric Store) is repository code not present under src/. Per the
spec it is a key-value persistence mechanism that, given an experiment
name, returns a fixed-arity tuple of numeric sequences, with missing or
malformed stored data propagating as an uncaught failure; each record is
therefore an `Option` field, `none` meaning the load raises. The five
keys read by this module are the five fields. -/
structure Store where
  block3 : Option BlockNetData
  block4 : Option BlockNetData
  block5 : Option BlockNetData
  supervised : Option (List ℚ × List ℚ)
  semiSupervised : Option SemiData
deriving DecidableEq

/-- `plot_semi` (plot.py lines 94-134). Loads the `"semi-supervised"`
record, takes `acc_lst[-1]` of every stored accuracy sequence (raising on
an empty sequence), scales the image counts by 10, and draws one panel
with two labeled lines, saved under a fixed file name. -/
def plot_semi (img_per_class : List ℚ) (figsize : ℚ × ℚ)
    (semiRecord : Option SemiData) : Option SavedFig := do
  let sd ← semiRecord
  let acc ← optionTraverse (fun l => l.getLast?) sd.semi_acc
  let nin_acc ← optionTraverse (fun l => l.getLast?) sd.semi_sup_acc
  let num_img := img_per_class.map (fun x => 10 * x)
  let l1 ← mkLine num_img acc (some ("semi-supervised"))
  let l2 ← mkLine num_img nin_acc (some ("supervised NIN"))
  pure ⟨[[⟨[l1, l2], [], "Number of Images used for Training", "Accuracy",
           "Comparison Semi-supervised and supervised NIN", true, true⟩]],
        figsize, "./plot", "Comparison Semi-supervised and supervised NIN.png"⟩

/-- Titles built by the inner loop at plot.py lines 166-168. -/
def clfTitles (i : Nat) : List String :=
  (List.range' 1 i).map
    (fun j => "Non-Linear Classifier trained on ConvBlock " ++ toString j)

/-- Titles built by the inner loop at plot.py lines 177-179. -/
def convTitles (i : Nat) : List String :=
  (List.range' 1 i).map
    (fun j => "ConvClassifier trained on ConvBlock " ++ toString j)

/-- Body of the `for i, num_img in enumerate(semi)` loop at plot.py lines
190-197: two `plot` calls (grid then overlay) on the `i`-th semi-supervised
and supervised logs. -/
def semiRound (sd : SemiData) (p : Nat × ℚ) : Option (List SavedFig) := do
  let i := p.1
  let num_img := p.2
  let semi_titles := ["Semi-supervised " ++ toString num_img ++ " images per class",
                      "Supervised NIN " ++ toString num_img ++ " images per class"]
  let semi_filename := "Semi-supervised Learning " ++ toString num_img
  let sl ← sd.semi_loss[i]?
  let ssl ← sd.semi_sup_loss[i]?
  let sa ← sd.semi_acc[i]?
  let ssa ← sd.semi_sup_acc[i]?
  let p1 ← plot semi_titles [sl, ssl] [sa, ssa] semi_filename (15, 10) false none none false
  let p2 ← plot semi_titles [sl, ssl] [sa, ssa] semi_filename (15, 10) true none none false
  pure [p1, p2]

/-- The rotation-task figures of `plot_all` (plot.py lines 155-160): a
grid-mode call followed by an overlay call on the three RotNet logs. -/
def rotFigs (b3 b4 b5 : BlockNetData) : Option (List SavedFig) := do
  let rot_titles := ["Rotation Task of 3 Block RotNet", "Rotation Task of 4 Block RotNet",
                     "Rotation Task of 5 Block RotNet"]
  let rot_loss := [b3.rot_loss, b4.rot_loss, b5.rot_loss]
  let rot_acc := [b3.rot_acc, b4.rot_acc, b5.rot_acc]
  let f1 ← plot rot_titles rot_loss rot_acc ("Rotation Task") (15, 10) false none none false
  let f2 ← plot rot_titles rot_loss rot_acc ("Rotation Task") (15, 10) true none none false
  pure [f1, f2]

/-- One iteration of the non-linear-classifier loop of `plot_all`
(plot.py lines 165-171): grid then overlay call for the `i`-block net. -/
def clfRound (i : Nat) (lss acs : List (List ℚ)) : Option (List SavedFig) := do
  let fname := "Non-Linear Classifier and " ++ toString i ++ " Block RotNet"
  let g ← plot (clfTitles i) lss acs fname (15, 10) false none none false
  let go ← plot (clfTitles i) lss acs fname (15, 10) true none none false
  pure [g, go]

/-- One iteration of the convolutional-classifier loop of `plot_all`
(plot.py lines 176-182): grid then overlay call for the `i`-block net. -/
def convRound (i : Nat) (lss acs : List (List ℚ)) : Option (List SavedFig) := do
  let fname := "Convolutional Classifier and " ++ toString i ++ " Block RotNet"
  let g ← plot (convTitles i) lss acs fname (15, 10) false none none false
  let go ← plot (convTitles i) lss acs fname (15, 10) true none none false
  pure [g, go]

/-- The unconditional figure sequence of `plot_all` (plot.py lines
154-186): the rotation-task figures, the six non-linear-classifier
figures, the six convolutional-classifier figures, and the supervised-NIN
overlay figure, in call order. The grid-mode supervised call at line 185
is commented out in the source and is omitted here. -/
def plot_all_base (b3 b4 b5 : BlockNetData) (sup : List ℚ × List ℚ) :
    Option (List SavedFig) := do
  let rot ← rotFigs b3 b4 b5
  let c3 ← clfRound 3 b3.clf_loss b3.clf_acc
  let c4 ← clfRound 4 b4.clf_loss b4.clf_acc
  let c5 ← clfRound 5 b5.clf_loss b5.clf_acc
  let v3 ← convRound 3 b3.conv_loss b3.conv_acc
  let v4 ← convRound 4 b4.conv_loss b4.conv_acc
  let v5 ← convRound 5 b5.conv_loss b5.conv_acc
  let s1 ← plot ["Supervised NIN"] [sup.1] [sup.2]
    ("Supervised NIN") (15, 10) true none none true
  pure (rot ++ c3 ++ c4 ++ c5 ++ v3 ++ v4 ++ v5 ++ [s1])

/-- The semi-supervised figure sequence of `plot_all` (plot.py lines
189-200): two figures per entry of `semi` (grid and overlay), then the
`plot_semi` comparison chart, which re-loads the `"semi-supervised"`
record itself. -/
def plot_all_semi_figs (sd : SemiData) (semiRecord : Option SemiData)
    (ns : List ℚ) : Option (List SavedFig) := do
  let rounds ← optionTraverse (semiRound sd) ns.enum
  let fsemi ← plot_semi ns (15, 10) semiRecord
  pure (rounds.flatten ++ [fsemi])

/-- `plot_all` (plot.py lines 137-200). All five store records are loaded
first (lines 146-150), so a failing `"semi-supervised"` load aborts the
whole run regardless of `semi`; then the fixed sequence of `plot` calls
runs; the semi-supervised figures are produced only when `semi` is not
`None`. The result collects every saved figure in call order. -/
def plot_all (semi : Option (List ℚ)) (store : Store) : Option (List SavedFig) := do
  let b3 ← store.block3
  let b4 ← store.block4
  let b5 ← store.block5
  let sup ← store.supervised
  let sd ← store.semiSupervised
  let base ← plot_all_base b3 b4 b5 sup
  match semi with
  | none => pure base
  | some ns => do
    let extra ← plot_all_semi_figs sd store.semiSupervised ns
    pure (base ++ extra)

/-- The `loss_lst` arguments of the grid-mode (`all_in_one=False`) `plot`
calls made by `plot_all`, in source order: the rotation-task call (line
159), the six classifier calls (lines 169, 180), and one call per
semi-supervised size (line 195). The commented-out line 185 and all
`all_in_one=True` calls are overlay mode and excluded. -/
def plot_all_grid_loss_args (semi : Option (List ℚ)) (b3 b4 b5 : BlockNetData)
    (sd : SemiData) : List (List (List ℚ)) :=
  [[b3.rot_loss, b4.rot_loss, b5.rot_loss],
   b3.clf_loss, b4.clf_loss, b5.clf_loss,
   b3.conv_loss, b4.conv_loss, b5.conv_loss]
  ++ (match semi with
      | none => []
      | some ns => ns.enum.map
          (fun p => [sd.semi_loss.getD p.1 [], sd.semi_sup_loss.getD p.1 []]))

/-- The caller-visible argument objects of one `plot` call. Python passes
object references; a callee-side mutation of any of these lists would be
visible to the caller after the call returns. -/
structure PlotArgs where
  title_lst : List String
  loss_lst : List (List ℚ)
  accuracy_lst : List (List ℚ)
  max_accuracy : Option (List ℚ)
  best_epoch : Option (List ℚ)
deriving DecidableEq

/-- A `plot` call viewed together with the final state of its argument
objects. The source only reads the five list arguments (indexing and
`len`), and the overlay-mode `filename += '_comparison'` at line 60
rebinds the local string variable (strings are immutable), so the
arguments thread through unchanged. -/
def plotCall (a : PlotArgs) (filename : String) (figsize : ℚ × ℚ)
    (all_in_one history : Bool) : Option SavedFig × PlotArgs :=
  (plot a.title_lst a.loss_lst a.accuracy_lst filename figsize all_in_one
     a.max_accuracy a.best_epoch history, a)

/-! Concrete fixtures used to instantiate the theorems below on closed
inputs. -/

/-- The figure produced by a two-session grid-mode call on
`titles=["A","B"]`, `loss=[[5],[6]]`, `accuracy=[[7],[8]]`. -/
def wOut1 : SavedFig :=
  ⟨[[⟨[⟨[1], [5], none⟩], [], "Epoch", "Loss", "Loss of A", true, false⟩,
     ⟨[⟨[1], [7], none⟩], [], "Epoch", "Accuracy", "Accuracy of A", true, false⟩],
    [⟨[⟨[1], [6], none⟩], [], "Epoch", "Loss", "Loss of B", true, false⟩,
     ⟨[⟨[1], [8], none⟩], [], "Epoch", "Accuracy", "Accuracy of B", true, false⟩]],
   (15, 10), "./plot", "w1.png"⟩

/-- Like `wOut1` but with marker lists `best_epoch=[2,3]`,
`max_accuracy=[9,10]` supplied, for file name stem `w2`. -/
def wOut2 : SavedFig :=
  ⟨[[⟨[⟨[1], [5], none⟩], [], "Epoch", "Loss", "Loss of A", true, false⟩,
     ⟨[⟨[1], [7], none⟩], [⟨2, 9⟩], "Epoch", "Accuracy", "Accuracy of A", true, false⟩],
    [⟨[⟨[1], [6], none⟩], [], "Epoch", "Loss", "Loss of B", true, false⟩,
     ⟨[⟨[1], [8], none⟩], [⟨3, 10⟩], "Epoch", "Accuracy", "Accuracy of B", true, false⟩]],
   (15, 10), "./plot", "w2.png"⟩

/-- Like `wOut1`, for file name stem `w3`. -/
def wOut3 : SavedFig :=
  ⟨[[⟨[⟨[1], [5], none⟩], [], "Epoch", "Loss", "Loss of A", true, false⟩,
     ⟨[⟨[1], [7], none⟩], [], "Epoch", "Accuracy", "Accuracy of A", true, false⟩],
    [⟨[⟨[1], [6], none⟩], [], "Epoch", "Loss", "Loss of B", true, false⟩,
     ⟨[⟨[1], [8], none⟩], [], "Epoch", "Accuracy", "Accuracy of B", true, false⟩]],
   (15, 10), "./plot", "w3.png"⟩

/-- The figure produced by a one-session overlay-mode call on
`titles=["A"]`, `loss=[[5]]`, `accuracy=[[7]]`, stem `w4`. -/
def wOut4 : SavedFig :=
  ⟨[[⟨[⟨[1], [5], some ("A")⟩], [], "Epoch", "Loss", "Comparision of Losses", true, true⟩,
     ⟨[⟨[1], [7], some ("A")⟩], [], "Epoch", "Accuracy", "Comparision of Accuracies",
      true, true⟩]],
   (15, 10), "./plot", "w4_comparison.png"⟩

/-- Like `wOut4`, for file name stem `w5`. -/
def wOut5 : SavedFig :=
  ⟨[[⟨[⟨[1], [5], some ("A")⟩], [], "Epoch", "Loss", "Comparision of Losses", true, true⟩,
     ⟨[⟨[1], [7], some ("A")⟩], [], "Epoch", "Accuracy", "Comparision of Accuracies",
      true, true⟩]],
   (15, 10), "./plot", "w5_comparison.png"⟩

/-- A one-entry semi-supervised record: one stored accuracy sequence per
collection. -/
def wSemi6 : SemiData := ⟨[], [[2, 3]], [], [[4]]⟩

/-- The figure produced by `plot_semi` on image counts `[1]` and record
`wSemi6`. -/
def wOut6 : SavedFig :=
  ⟨[[⟨[⟨[10], [3], some ("semi-supervised")⟩, ⟨[10], [4], some ("supervised NIN")⟩],
      [], "Number of Images used for Training", "Accuracy",
      "Comparison Semi-supervised and supervised NIN", true, true⟩]],
   (15, 10), "./plot", "Comparison Semi-supervised and supervised NIN.png"⟩

/-- A block-net record whose classifier collections hold `k` empty
sequences each. -/
def bdEx (k : Nat) : BlockNetData :=
  ⟨[], [], List.replicate k [], List.replicate k [],
   List.replicate k [], List.replicate k []⟩

/-- An empty semi-supervised record. -/
def sdEx : SemiData := ⟨[], [], [], []⟩

/-- A store whose `"semi-supervised"` record is absent. -/
def storeNoSemi : Store := ⟨none, none, none, none, none⟩

/-! Helper lemmas. -/

lemma epochList_length (n : Nat) : (epochList n).length = n := by
  rw [epochList, List.length_map]
  exact List.length_range' 1 1 n

lemma mkLine_some {xs ys : List ℚ} {lab : Option String} {l : Line}
    (h : mkLine xs ys lab = some l) :
    l = ⟨xs, ys, lab⟩ ∧ xs.length = ys.length := by
  unfold mkLine at h
  split at h
  · exact ⟨(Option.some.injEq _ _ ▸ h).symm, by assumption⟩
  · exact absurd h (by simp)

lemma mkLine_eq_of_len {xs ys : List ℚ} {lab : Option String}
    (h : xs.length = ys.length) : mkLine xs ys lab = some ⟨xs, ys, lab⟩ := by
  simp [mkLine, h]

lemma optionTraverse_length {α β : Type} {f : α → Option β} :
    ∀ {l : List α} {out : List β}, optionTraverse f l = some out →
      out.length = l.length := by
  intro l
  induction l with
  | nil =>
    intro out h
    simp only [optionTraverse, Option.some.injEq] at h
    simp [← h]
  | cons a as ih =>
    intro out h
    simp only [optionTraverse, Option.bind_eq_bind, Option.bind_eq_some,
      Option.pure_def, Option.some.injEq] at h
    obtain ⟨b, _, bs, hbs, rfl⟩ := h
    simp [ih hbs]

lemma optionTraverse_getElem? {α β : Type} {f : α → Option β} :
    ∀ {l : List α} {out : List β}, optionTraverse f l = some out →
      ∀ {i : Nat} {x : α}, l[i]? = some x → out[i]? = f x := by
  intro l
  induction l with
  | nil =>
    intro out _ i x hx
    simp at hx
  | cons a as ih =>
    intro out h i x hx
    simp only [optionTraverse, Option.bind_eq_bind, Option.bind_eq_some,
      Option.pure_def, Option.some.injEq] at h
    obtain ⟨b, hb, bs, hbs, rfl⟩ := h
    cases i with
    | zero =>
      simp only [List.getElem?_cons_zero, Option.some.injEq] at hx
      subst hx
      simp [hb]
    | succ n =>
      simp only [List.getElem?_cons_succ] at hx ⊢
      exact ih hbs hx

lemma optionTraverse_mem {α β : Type} {f : α → Option β} :
    ∀ {l : List α} {out : List β}, optionTraverse f l = some out →
      ∀ {b : β}, b ∈ out → ∃ a ∈ l, f a = some b := by
  intro l
  induction l with
  | nil =>
    intro out h b hb
    simp only [optionTraverse, Option.some.injEq] at h
    subst h
    simp at hb
  | cons a as ih =>
    intro out h b hb
    simp only [optionTraverse, Option.bind_eq_bind, Option.bind_eq_some,
      Option.pure_def, Option.some.injEq] at h
    obtain ⟨c, hc, bs, hbs, rfl⟩ := h
    rcases List.mem_cons.mp hb with hb | hb
    · exact ⟨a, List.mem_cons_self a as, hb ▸ hc⟩
    · obtain ⟨x, hx, hfx⟩ := ih hbs hb
      exact ⟨x, List.mem_cons_of_mem a hx, hfx⟩

lemma range_getElem? {n i : Nat} (h : i < n) : (List.range n)[i]? = some i := by
  simp [List.getElem?_eq_getElem, List.length_range, h]

lemma overlayLine_inv {t : List String} {sl : List (List ℚ)} {i : Nat} {l : Line}
    (h : overlayLine t sl i = some l) :
    ∃ s ti, sl[i]? = some s ∧ t[i]? = some ti ∧
      l = ⟨epochList s.length, s, some ti⟩ := by
  simp only [overlayLine, Option.bind_eq_bind, Option.bind_eq_some] at h
  obtain ⟨s, hs, ti, hti, hl⟩ := h
  obtain ⟨rfl, -⟩ := mkLine_some hl
  exact ⟨s, ti, hs, hti, rfl⟩

lemma overlayLine_of_getElem? {t : List String} {sl : List (List ℚ)} {i : Nat}
    {s : List ℚ} {ti : String} (hs : sl[i]? = some s) (hti : t[i]? = some ti) :
    overlayLine t sl i = some ⟨epochList s.length, s, some ti⟩ := by
  simp only [overlayLine, hs, hti, Option.bind_eq_bind, Option.some_bind]
  exact mkLine_eq_of_len (epochList_length s.length)

lemma gridMarkers_inv {be ma : Option (List ℚ)} {i : Nat} {mks : List Marker}
    (h : gridMarkers be ma i = some mks) :
    (∃ bel mal x y, be = some bel ∧ ma = some mal ∧
        bel[i]? = some x ∧ mal[i]? = some y ∧ mks = [⟨x, y⟩])
      ∨ ((be = none ∨ ma = none) ∧ mks = []) := by
  rcases be with _ | bel <;> rcases ma with _ | mal
  all_goals simp only [gridMarkers, Option.some.injEq] at h
  · exact Or.inr ⟨Or.inl rfl, h.symm⟩
  · exact Or.inr ⟨Or.inl rfl, h.symm⟩
  · exact Or.inr ⟨Or.inr rfl, h.symm⟩
  · simp only [Option.bind_eq_bind, Option.bind_eq_some, Option.pure_def,
      Option.some.injEq] at h
    obtain ⟨x, hx, y, hy, rfl⟩ := h
    exact Or.inl ⟨bel, mal, x, y, rfl, rfl, hx, hy, rfl⟩

lemma gridRow_inv {t : List String} {ll al : List (List ℚ)}
    {ma be : Option (List ℚ)} {i : Nat} {row : List Panel}
    (h : gridRow t ll al ma be i = some row) :
    ∃ ls ai ti mks, ll[i]? = some ls ∧ al[i]? = some ai ∧ t[i]? = some ti ∧
      ls.length = ai.length ∧ gridMarkers be ma i = some mks ∧
      row = [⟨[⟨epochList ls.length, ls, none⟩], [], "Epoch", "Loss",
              "Loss of " ++ ti, true, false⟩,
             ⟨[⟨epochList ls.length, ai, none⟩], mks, "Epoch", "Accuracy",
              "Accuracy of " ++ ti, true, false⟩] := by
  simp only [gridRow, Option.bind_eq_bind, Option.bind_eq_some, Option.pure_def,
    Option.some.injEq] at h
  obtain ⟨ls, hls, lossLine, hlossLine, ti, hti, ai, hai, accLine, haccLine,
    mks, hmks, hrow⟩ := h
  obtain ⟨rfl, -⟩ := mkLine_some hlossLine
  obtain ⟨rfl, hlen⟩ := mkLine_some haccLine
  refine ⟨ls, ai, ti, mks, hls, hai, hti, ?_, hmks, hrow.symm⟩
  simpa [epochList_length] using hlen

lemma plot_grid_inv {t : List String} {ll al : List (List ℚ)} {fn : String}
    {fs : ℚ × ℚ} {ma be : Option (List ℚ)} {hist : Bool} {out : SavedFig}
    (h : plot t ll al fn fs false ma be hist = some out) :
    ∃ rows, optionTraverse (gridRow t ll al ma be) (List.range ll.length) = some rows ∧
      out = ⟨rows, fs, "./plot", fn ++ ".png"⟩ ∧ 2 ≤ ll.length := by
  simp only [plot, Option.bind_eq_bind, Option.bind_eq_some, Option.pure_def,
    Option.some.injEq] at h
  obtain ⟨rows, hrows, hout⟩ := h
  rw [gridRows] at hrows
  split at hrows
  · exact absurd hrows (by simp)
  · exact ⟨rows, hrows, hout.symm, by omega⟩

lemma plot_overlay_inv {t : List String} {ll al : List (List ℚ)} {fn : String}
    {fs : ℚ × ℚ} {ma be : Option (List ℚ)} {hist : Bool} {out : SavedFig}
    (h : plot t ll al fn fs true ma be hist = some out) :
    ∃ lossLines accLines,
      optionTraverse (overlayLine t ll) (List.range ll.length) = some lossLines ∧
      optionTraverse (overlayLine t al) (List.range ll.length) = some accLines ∧
      out = ⟨[[⟨lossLines, [], "Epoch", "Loss",
                if hist then "History of Loss" else "Comparision of Losses",
                true, true⟩,
               ⟨accLines, [], "Epoch", "Accuracy",
                if hist then "History of Accuracies" else "Comparision of Accuracies",
                true, true⟩]],
             fs, "./plot", fn ++ "_comparison" ++ ".png"⟩ := by
  simp only [plot, overlayRows, Option.bind_eq_bind, Option.bind_eq_some,
    Option.pure_def, Option.some.injEq] at h
  obtain ⟨rows, ⟨lossLines, hloss, accLines, hacc, hrows⟩, hout⟩ := h
  exact ⟨lossLines, accLines, hloss, hacc, by rw [← hout, ← hrows]⟩

lemma plot_some_file {t : List String} {ll al : List (List ℚ)} {fn : String}
    {fs : ℚ × ℚ} {aio : Bool} {ma be : Option (List ℚ)} {hist : Bool}
    {out : SavedFig} (h : plot t ll al fn fs aio ma be hist = some out) :
    out.dir = "./plot" ∧
      out.file = (if aio then fn ++ "_comparison" else fn) ++ ".png" := by
  cases aio
  · obtain ⟨rows, -, rfl, -⟩ := plot_grid_inv h
    simp
  · obtain ⟨lossLines, accLines, -, -, rfl⟩ := plot_overlay_inv h
    simp

lemma plot_single_session {t : List String} {ll al : List (List ℚ)} {fn : String}
    {fs : ℚ × ℚ} {ma be : Option (List ℚ)} {hist : Bool} (hl : ll.length = 1) :
    plot t ll al fn fs false ma be hist = none := by
  simp [plot, gridRows, hl]

lemma plot_semi_inv {c : List ℚ} {fs : ℚ × ℚ} {rec : Option SemiData}
    {out : SavedFig} (h : plot_semi c fs rec = some out) :
    ∃ sd accYs ninYs, rec = some sd ∧
      optionTraverse (fun l => l.getLast?) sd.semi_acc = some accYs ∧
      optionTraverse (fun l => l.getLast?) sd.semi_sup_acc = some ninYs ∧
      c.length = accYs.length ∧ c.length = ninYs.length ∧
      out = ⟨[[⟨[⟨c.map (fun x => 10 * x), accYs, some ("semi-supervised")⟩,
                 ⟨c.map (fun x => 10 * x), ninYs, some ("supervised NIN")⟩],
                [], "Number of Images used for Training", "Accuracy",
                "Comparison Semi-supervised and supervised NIN", true, true⟩]],
             fs, "./plot", "Comparison Semi-supervised and supervised NIN.png"⟩ := by
  simp only [plot_semi, Option.bind_eq_bind, Option.bind_eq_some, Option.pure_def,
    Option.some.injEq] at h
  obtain ⟨sd, hsd, acc, hacc, nin, hnin, l1, hl1, l2, hl2, hout⟩ := h
  obtain ⟨rfl, hlen1⟩ := mkLine_some hl1
  obtain ⟨rfl, hlen2⟩ := mkLine_some hl2
  simp only [List.length_map] at hlen1 hlen2
  exact ⟨sd, acc, nin, hsd, hacc, hnin, hlen1, hlen2, hout.symm⟩

lemma rotFigs_inv {b3 b4 b5 : BlockNetData} {r : List SavedFig}
    (h : rotFigs b3 b4 b5 = some r) :
    ∃ f1 f2, r = [f1, f2] ∧
      plot ["Rotation Task of 3 Block RotNet", "Rotation Task of 4 Block RotNet",
            "Rotation Task of 5 Block RotNet"]
        [b3.rot_loss, b4.rot_loss, b5.rot_loss] [b3.rot_acc, b4.rot_acc, b5.rot_acc]
        ("Rotation Task") (15, 10) false none none false = some f1 ∧
      plot ["Rotation Task of 3 Block RotNet", "Rotation Task of 4 Block RotNet",
            "Rotation Task of 5 Block RotNet"]
        [b3.rot_loss, b4.rot_loss, b5.rot_loss] [b3.rot_acc, b4.rot_acc, b5.rot_acc]
        ("Rotation Task") (15, 10) true none none false = some f2 := by
  simp only [rotFigs, Option.bind_eq_bind, Option.bind_eq_some, Option.pure_def,
    Option.some.injEq] at h
  obtain ⟨f1, h1, f2, h2, hr⟩ := h
  exact ⟨f1, f2, hr.symm, h1, h2⟩

lemma clfRound_inv {i : Nat} {lss acs : List (List ℚ)} {r : List SavedFig}
    (h : clfRound i lss acs = some r) :
    ∃ g go, r = [g, go] ∧
      plot (clfTitles i) lss acs
        ("Non-Linear Classifier and " ++ toString i ++ " Block RotNet")
        (15, 10) false none none false = some g ∧
      plot (clfTitles i) lss acs
        ("Non-Linear Classifier and " ++ toString i ++ " Block RotNet")
        (15, 10) true none none false = some go := by
  simp only [clfRound, Option.bind_eq_bind, Option.bind_eq_some, Option.pure_def,
    Option.some.injEq] at h
  obtain ⟨g, hg, go, hgo, hr⟩ := h
  exact ⟨g, go, hr.symm, hg, hgo⟩

lemma convRound_inv {i : Nat} {lss acs : List (List ℚ)} {r : List SavedFig}
    (h : convRound i lss acs = some r) :
    ∃ g go, r = [g, go] ∧
      plot (convTitles i) lss acs
        ("Convolutional Classifier and " ++ toString i ++ " Block RotNet")
        (15, 10) false none none false = some g ∧
      plot (convTitles i) lss acs
        ("Convolutional Classifier and " ++ toString i ++ " Block RotNet")
        (15, 10) true none none false = some go := by
  simp only [convRound, Option.bind_eq_bind, Option.bind_eq_some, Option.pure_def,
    Option.some.injEq] at h
  obtain ⟨g, hg, go, hgo, hr⟩ := h
  exact ⟨g, go, hr.symm, hg, hgo⟩

lemma plot_all_base_inv {b3 b4 b5 : BlockNetData} {sup : List ℚ × List ℚ}
    {base : List SavedFig} (h : plot_all_base b3 b4 b5 sup = some base) :
    ∃ rot c3 c4 c5 v3 v4 v5 s1,
      rotFigs b3 b4 b5 = some rot ∧
      clfRound 3 b3.clf_loss b3.clf_acc = some c3 ∧
      clfRound 4 b4.clf_loss b4.clf_acc = some c4 ∧
      clfRound 5 b5.clf_loss b5.clf_acc = some c5 ∧
      convRound 3 b3.conv_loss b3.conv_acc = some v3 ∧
      convRound 4 b4.conv_loss b4.conv_acc = some v4 ∧
      convRound 5 b5.conv_loss b5.conv_acc = some v5 ∧
      plot ["Supervised NIN"] [sup.1] [sup.2] ("Supervised NIN") (15, 10)
        true none none true = some s1 ∧
      base = rot ++ c3 ++ c4 ++ c5 ++ v3 ++ v4 ++ v5 ++ [s1] := by
  simp only [plot_all_base, Option.bind_eq_bind, Option.bind_eq_some,
    Option.pure_def, Option.some.injEq] at h
  obtain ⟨rot, hrot, c3, hc3, c4, hc4, c5, hc5, v3, hv3, v4, hv4, v5, hv5, s1,
    hs1, hbase⟩ := h
  exact ⟨rot, c3, c4, c5, v3, v4, v5, s1, hrot, hc3, hc4, hc5, hv3, hv4, hv5,
    hs1, hbase.symm⟩

/-- No figure of the unconditional part of `plot_all` carries the
`plot_semi` output file name. -/
lemma plot_all_base_files {b3 b4 b5 : BlockNetData} {sup : List ℚ × List ℚ}
    {base : List SavedFig} (h : plot_all_base b3 b4 b5 sup = some base) :
    ∀ f ∈ base, f.file ≠ "Comparison Semi-supervised and supervised NIN.png" := by
  obtain ⟨rot, c3, c4, c5, v3, v4, v5, s1, hrot, hc3, hc4, hc5, hv3, hv4, hv5,
    hs1, rfl⟩ := plot_all_base_inv h
  obtain ⟨f1, f2, rfl, h1, h2⟩ := rotFigs_inv hrot
  obtain ⟨g3, g3o, rfl, hg3, hg3o⟩ := clfRound_inv hc3
  obtain ⟨g4, g4o, rfl, hg4, hg4o⟩ := clfRound_inv hc4
  obtain ⟨g5, g5o, rfl, hg5, hg5o⟩ := clfRound_inv hc5
  obtain ⟨w3, w3o, rfl, hw3, hw3o⟩ := convRound_inv hv3
  obtain ⟨w4, w4o, rfl, hw4, hw4o⟩ := convRound_inv hv4
  obtain ⟨w5, w5o, rfl, hw5, hw5o⟩ := convRound_inv hv5
  intro f hf
  simp only [List.mem_append, List.mem_cons, List.mem_singleton,
    List.not_mem_nil, or_false] at hf
  rcases hf with
    (((((((rfl | rfl) | (rfl | rfl)) | (rfl | rfl)) | (rfl | rfl)) |
      (rfl | rfl)) | (rfl | rfl)) | (rfl | rfl)) | rfl
  · rw [(plot_some_file h1).2]; decide
  · rw [(plot_some_file h2).2]; decide
  · rw [(plot_some_file hg3).2]; decide
  · rw [(plot_some_file hg3o).2]; decide
  · rw [(plot_some_file hg4).2]; decide
  · rw [(plot_some_file hg4o).2]; decide
  · rw [(plot_some_file hg5).2]; decide
  · rw [(plot_some_file hg5o).2]; decide
  · rw [(plot_some_file hw3).2]; decide
  · rw [(plot_some_file hw3o).2]; decide
  · rw [(plot_some_file hw4).2]; decide
  · rw [(plot_some_file hw4o).2]; decide
  · rw [(plot_some_file hw5).2]; decide
  · rw [(plot_some_file hw5o).2]; decide
  · rw [(plot_some_file hs1).2]; decide

lemma plot_all_semi_figs_inv {sd : SemiData} {rec : Option SemiData}
    {ns : List ℚ} {extra : List SavedFig}
    (h : plot_all_semi_figs sd rec ns = some extra) :
    ∃ rounds fsemi, optionTraverse (semiRound sd) ns.enum = some rounds ∧
      plot_semi ns (15, 10) rec = some fsemi ∧
      extra = rounds.flatten ++ [fsemi] := by
  simp only [plot_all_semi_figs, Option.bind_eq_bind, Option.bind_eq_some,
    Option.pure_def, Option.some.injEq] at h
  obtain ⟨rounds, hrounds, fsemi, hfsemi, hx⟩ := h
  exact ⟨rounds, fsemi, hrounds, hfsemi, hx.symm⟩

lemma plot_all_some_inv {semi : Option (List ℚ)} {store : Store}
    {out : List SavedFig} (h : plot_all semi store = some out) :
    ∃ b3 b4 b5 sup sd base, store.block3 = some b3 ∧ store.block4 = some b4 ∧
      store.block5 = some b5 ∧ store.supervised = some sup ∧
      store.semiSupervised = some sd ∧ plot_all_base b3 b4 b5 sup = some base ∧
      ((semi = none ∧ out = base) ∨
        (∃ ns extra, semi = some ns ∧
          plot_all_semi_figs sd store.semiSupervised ns = some extra ∧
          out = base ++ extra)) := by
  simp only [plot_all, Option.bind_eq_bind, Option.bind_eq_some] at h
  obtain ⟨b3, h3, b4, h4, b5, h5, sup, hsup, sd, hsd, base, hbase, hrest⟩ := h
  refine ⟨b3, b4, b5, sup, sd, base, h3, h4, h5, hsup, hsd, hbase, ?_⟩
  cases semi with
  | none =>
    simp only [Option.pure_def, Option.some.injEq] at hrest
    exact Or.inl ⟨rfl, hrest.symm⟩
  | some ns =>
    simp only [Option.bind_eq_bind, Option.bind_eq_some, Option.pure_def,
      Option.some.injEq] at hrest
    obtain ⟨extra, hextra, hout⟩ := hrest
    exact Or.inr ⟨ns, extra, rfl, hextra, hout.symm⟩

lemma plot_all_of_semiRecord_none {semi : Option (List ℚ)} {store : Store}
    (hsd : store.semiSupervised = none) : plot_all semi store = none := by
  cases hpa : plot_all semi store with
  | none => rfl
  | some out =>
    obtain ⟨b3, b4, b5, sup, sd, base, -, -, -, -, hsd2, -, -⟩ :=
      plot_all_some_inv hpa
    rw [hsd] at hsd2
    exact absurd hsd2 (by simp)

/-! The claims. -/

/-- C1: for every call to `plot`, in every panel the plotted x-values of a
metric sequence are exactly the integers `1..L` in order, where `L` is the
length of that panel's own plotted sequence, in both overlay mode and grid
mode. (In grid mode the source computes the accuracy panel's x-list from
the loss sequence, but `Axes.plot` forces the two lengths to agree, so on
every produced figure the x-values equal `1..L` of the panel's own
sequence.) -/
theorem plot_x_values_one_to_len
    (t : List String) (l a : List (List ℚ)) (fn : String) (fs : ℚ × ℚ)
    (aio : Bool) (ma be : Option (List ℚ)) (hist : Bool) (out : SavedFig)
    (h : plot t l a fn fs aio ma be hist = some out) :
    ∀ row ∈ out.rows, ∀ p ∈ row, ∀ ln ∈ p.lines,
      ln.xs = epochList ln.ys.length := by
  intro row hrow p hp ln hln
  cases aio
  · obtain ⟨rows, htrav, rfl, -⟩ := plot_grid_inv h
    obtain ⟨i, -, hgr⟩ := optionTraverse_mem htrav hrow
    obtain ⟨ls, ai, ti, mks, -, -, -, hlen, -, rfl⟩ := gridRow_inv hgr
    rcases List.mem_cons.mp hp with rfl | hp
    · rcases List.mem_singleton.mp hln with rfl
      rfl
    · rcases List.mem_singleton.mp hp with rfl
      rcases List.mem_singleton.mp hln with rfl
      show epochList ls.length = epochList ai.length
      rw [hlen]
  · obtain ⟨lossLines, accLines, hlt, hat, rfl⟩ := plot_overlay_inv h
    rcases List.mem_singleton.mp hrow with rfl
    rcases List.mem_cons.mp hp with rfl | hp
    · obtain ⟨j, -, hol⟩ := optionTraverse_mem hlt hln
      obtain ⟨s, ti, -, -, rfl⟩ := overlayLine_inv hol
      show epochList s.length = epochList s.length
      rfl
    · rcases List.mem_singleton.mp hp with rfl
      obtain ⟨j, -, hol⟩ := optionTraverse_mem hat hln
      obtain ⟨s, ti, -, -, rfl⟩ := overlayLine_inv hol
      show epochList s.length = epochList s.length
      rfl

/-- Witness for C1 at a concrete two-session grid-mode call. -/
theorem plot_x_values_one_to_len_witness :
    (Line.mk [1] [5] none).xs = epochList (Line.mk [1] [5] none).ys.length :=
  plot_x_values_one_to_len ["A", "B"] [[5], [6]] [[7], [8]] "w1" (15, 10)
    false none none false wOut1 (by decide)
    [⟨[⟨[1], [5], none⟩], [], "Epoch", "Loss", "Loss of A", true, false⟩,
     ⟨[⟨[1], [7], none⟩], [], "Epoch", "Accuracy", "Accuracy of A", true, false⟩]
    (by decide)
    ⟨[⟨[1], [5], none⟩], [], "Epoch", "Loss", "Loss of A", true, false⟩
    (by decide)
    (Line.mk [1] [5] none) (by decide)

/-- C2: for every grid-mode call to `plot`, the best-epoch marker point is
drawn on row `i`'s accuracy panel if and only if both a best-epoch list
and a best-accuracy list are supplied; when both are supplied the marker
is `(best_epoch[i], max_accuracy[i])`, and with only one list (or
neither) no row gets a marker; the loss panel never gets one. -/
theorem plot_grid_marker_iff
    (t : List String) (l a : List (List ℚ)) (fn : String) (fs : ℚ × ℚ)
    (ma be : Option (List ℚ)) (hist : Bool) (out : SavedFig)
    (h : plot t l a fn fs false ma be hist = some out)
    (i : Nat) (row : List Panel) (hrow : out.rows[i]? = some row)
    (accP : Panel) (haccP : row[1]? = some accP) :
    ((accP.markers ≠ []) ↔ (be.isSome ∧ ma.isSome)) ∧
    (∀ bel mal x y, be = some bel → ma = some mal →
      bel[i]? = some x → mal[i]? = some y → accP.markers = [⟨x, y⟩]) ∧
    (∀ lossP, row[0]? = some lossP → lossP.markers = []) := by
  obtain ⟨rows, htrav, rfl, -⟩ := plot_grid_inv h
  have hrow' : rows[i]? = some row := hrow
  have hilen : i < l.length := by
    have h1 : i < rows.length := (List.getElem?_eq_some.mp hrow').1
    rwa [optionTraverse_length htrav, List.length_range] at h1
  have hgrid := optionTraverse_getElem? htrav (range_getElem? hilen)
  rw [hgrid] at hrow'
  obtain ⟨ls, ai, ti, mks, -, -, -, -, hmks, rfl⟩ := gridRow_inv hrow'
  simp only [List.getElem?_cons_succ, List.getElem?_cons_zero,
    Option.some.injEq] at haccP
  subst haccP
  refine ⟨?_, ?_, ?_⟩
  · rcases gridMarkers_inv hmks with ⟨bel, mal, x, y, rfl, rfl, -, -, rfl⟩ |
      ⟨hnone, rfl⟩
    · simp
    · rcases hnone with rfl | rfl <;> simp
  · intro bel mal x y hbe hma hx hy
    subst hbe
    subst hma
    rcases gridMarkers_inv hmks with ⟨bel2, mal2, x2, y2, hbe2, hma2, hx2, hy2, rfl⟩ |
      ⟨hnone, rfl⟩
    · obtain rfl : bel = bel2 := by injection hbe2
      obtain rfl : mal = mal2 := by injection hma2
      rw [hx] at hx2
      rw [hy] at hy2
      obtain rfl : x = x2 := by injection hx2
      obtain rfl : y = y2 := by injection hy2
      rfl
    · rcases hnone with hn | hn <;> exact absurd hn (by simp)
  · intro lossP hlossP
    simp only [List.getElem?_cons_zero, Option.some.injEq] at hlossP
    subst hlossP
    rfl

/-- Witness for C2 at a concrete two-session grid-mode call with both
marker lists supplied. -/
theorem plot_grid_marker_iff_witness :
    (((⟨[⟨[1], [7], none⟩], [⟨2, 9⟩], "Epoch", "Accuracy", "Accuracy of A",
        true, false⟩ : Panel).markers ≠ []) ↔
      ((some [2, 3] : Option (List ℚ)).isSome ∧
        (some [9, 10] : Option (List ℚ)).isSome)) ∧
    (⟨[⟨[1], [7], none⟩], [⟨2, 9⟩], "Epoch", "Accuracy", "Accuracy of A",
       true, false⟩ : Panel).markers = [⟨2, 9⟩] ∧
    (⟨[⟨[1], [5], none⟩], [], "Epoch", "Loss", "Loss of A",
       true, false⟩ : Panel).markers = [] := by
  have h := plot_grid_marker_iff ["A", "B"] [[5], [6]] [[7], [8]] "w2" (15, 10)
    (some [9, 10]) (some [2, 3]) false wOut2 (by decide) 0
    [⟨[⟨[1], [5], none⟩], [], "Epoch", "Loss", "Loss of A", true, false⟩,
     ⟨[⟨[1], [7], none⟩], [⟨2, 9⟩], "Epoch", "Accuracy", "Accuracy of A",
      true, false⟩]
    (by decide)
    ⟨[⟨[1], [7], none⟩], [⟨2, 9⟩], "Epoch", "Accuracy", "Accuracy of A",
     true, false⟩
    (by decide)
  exact ⟨h.1, h.2.1 [2, 3] [9, 10] 2 9 rfl rfl (by decide) (by decide),
    h.2.2 ⟨[⟨[1], [5], none⟩], [], "Epoch", "Loss", "Loss of A", true, false⟩
      (by decide)⟩

/-- C3: for every grid-mode call to `plot` on equal-length parallel lists
with `N = len(loss_lst)` that produces a figure, the figure has exactly
`N` rows of 2 panels, where row `i`'s left panel plots loss sequence `i`
titled from title `i` and row `i`'s right panel plots accuracy sequence
`i` titled from title `i`. -/
theorem plot_grid_shape
    (t : List String) (l a : List (List ℚ)) (fn : String) (fs : ℚ × ℚ)
    (ma be : Option (List ℚ)) (hist : Bool) (out : SavedFig)
    (ht : t.length = l.length) (ha : a.length = l.length)
    (h : plot t l a fn fs false ma be hist = some out) :
    out.rows.length = l.length ∧
    (∀ row ∈ out.rows, row.length = 2) ∧
    (∀ (i : Nat) (li ai : List ℚ) (ti : String) (row : List Panel),
      l[i]? = some li → a[i]? = some ai → t[i]? = some ti →
      out.rows[i]? = some row →
      row[0]? = some ⟨[⟨epochList li.length, li, none⟩], [], "Epoch", "Loss",
        "Loss of " ++ ti, true, false⟩ ∧
      (∀ accP, row[1]? = some accP →
        accP.lines = [⟨epochList ai.length, ai, none⟩] ∧
        accP.xlabel = "Epoch" ∧ accP.ylabel = "Accuracy" ∧
        accP.title = "Accuracy of " ++ ti)) := by
  obtain ⟨rows, htrav, rfl, -⟩ := plot_grid_inv h
  have hlen : rows.length = l.length := by
    rw [optionTraverse_length htrav, List.length_range]
  refine ⟨hlen, ?_, ?_⟩
  · intro row hrow
    obtain ⟨i, -, hgr⟩ := optionTraverse_mem htrav hrow
    obtain ⟨ls, ai, ti, mks, -, -, -, -, -, rfl⟩ := gridRow_inv hgr
    rfl
  · intro i li ai ti row hli hai hti hrow
    have hrow' : rows[i]? = some row := hrow
    have hi : i < l.length := (List.getElem?_eq_some.mp hli).1
    rw [optionTraverse_getElem? htrav (range_getElem? hi)] at hrow'
    obtain ⟨ls, ai2, ti2, mks, hls, hai2, hti2, hlen2, -, rfl⟩ := gridRow_inv hrow'
    rw [hli] at hls
    obtain rfl : li = ls := by injection hls
    rw [hai] at hai2
    obtain rfl : ai = ai2 := by injection hai2
    rw [hti] at hti2
    obtain rfl : ti = ti2 := by injection hti2
    refine ⟨rfl, ?_⟩
    intro accP haccP
    simp only [List.getElem?_cons_succ, List.getElem?_cons_zero,
      Option.some.injEq] at haccP
    subst haccP
    refine ⟨?_, rfl, rfl, rfl⟩
    show [Line.mk (epochList li.length) ai none]
        = [Line.mk (epochList ai.length) ai none]
    rw [hlen2]

/-- Witness for C3 at a concrete two-session grid-mode call. -/
theorem plot_grid_shape_witness :
    wOut3.rows.length = 2 ∧
    ([⟨[⟨[1], [5], none⟩], [], "Epoch", "Loss", "Loss of A", true, false⟩,
      ⟨[⟨[1], [7], none⟩], [], "Epoch", "Accuracy", "Accuracy of A", true,
       false⟩] : List Panel).length = 2 ∧
    ([⟨[⟨[1], [5], none⟩], [], "Epoch", "Loss", "Loss of A", true, false⟩,
      ⟨[⟨[1], [7], none⟩], [], "Epoch", "Accuracy", "Accuracy of A", true,
       false⟩] : List Panel)[0]?
      = some ⟨[⟨[1], [5], none⟩], [], "Epoch", "Loss", "Loss of A", true,
          false⟩ := by
  have h := plot_grid_shape ["A", "B"] [[5], [6]] [[7], [8]] "w3" (15, 10)
    none none false wOut3 rfl rfl (by decide)
  refine ⟨h.1, h.2.1
    [⟨[⟨[1], [5], none⟩], [], "Epoch", "Loss", "Loss of A", true, false⟩,
     ⟨[⟨[1], [7], none⟩], [], "Epoch", "Accuracy", "Accuracy of A", true,
      false⟩] (by decide), ?_⟩
  exact (h.2.2 0 [5] [7] "A"
    [⟨[⟨[1], [5], none⟩], [], "Epoch", "Loss", "Loss of A", true, false⟩,
     ⟨[⟨[1], [7], none⟩], [], "Epoch", "Accuracy", "Accuracy of A", true,
      false⟩] rfl rfl rfl (by decide)).1

/-- C4: for every overlay-mode call to `plot` on equal-length parallel
lists with `N = len(loss_lst)` that produces a figure, exactly 2 panels
are produced regardless of `N`: one holding all `N` loss sequences and
one holding all `N` accuracy sequences, each line labeled with the
corresponding entry of the title list. -/
theorem plot_overlay_two_panels
    (t : List String) (l a : List (List ℚ)) (fn : String) (fs : ℚ × ℚ)
    (ma be : Option (List ℚ)) (hist : Bool) (out : SavedFig)
    (ht : t.length = l.length) (ha : a.length = l.length)
    (h : plot t l a fn fs true ma be hist = some out) :
    out.rows.length = 1 ∧
    (∀ rowP : List Panel, out.rows[0]? = some rowP → rowP.length = 2 ∧
      (∀ p : Panel, rowP[0]? = some p → p.lines.length = l.length ∧
        p.ylabel = "Loss" ∧
        (∀ (i : Nat) (li : List ℚ) (ti : String), l[i]? = some li →
          t[i]? = some ti →
          p.lines[i]? = some ⟨epochList li.length, li, some ti⟩)) ∧
      (∀ p : Panel, rowP[1]? = some p → p.lines.length = l.length ∧
        p.ylabel = "Accuracy" ∧
        (∀ (i : Nat) (ai : List ℚ) (ti : String), a[i]? = some ai →
          t[i]? = some ti →
          p.lines[i]? = some ⟨epochList ai.length, ai, some ti⟩))) := by
  obtain ⟨lossLines, accLines, hlt, hat, rfl⟩ := plot_overlay_inv h
  refine ⟨rfl, ?_⟩
  intro rowP hrowP
  simp only [List.getElem?_cons_zero, Option.some.injEq] at hrowP
  subst hrowP
  refine ⟨rfl, ?_, ?_⟩
  · intro p hp
    simp only [List.getElem?_cons_zero, Option.some.injEq] at hp
    subst hp
    refine ⟨?_, rfl, ?_⟩
    · show lossLines.length = l.length
      rw [optionTraverse_length hlt, List.length_range]
    · intro i li ti hli hti
      have hi : i < l.length := (List.getElem?_eq_some.mp hli).1
      show lossLines[i]? = some ⟨epochList li.length, li, some ti⟩
      rw [optionTraverse_getElem? hlt (range_getElem? hi)]
      exact overlayLine_of_getElem? hli hti
  · intro p hp
    simp only [List.getElem?_cons_succ, List.getElem?_cons_zero,
      Option.some.injEq] at hp
    subst hp
    refine ⟨?_, rfl, ?_⟩
    · show accLines.length = l.length
      rw [optionTraverse_length hat, List.length_range]
    · intro i ai ti hai hti
      have hi : i < l.length := by
        have h1 : i < a.length := (List.getElem?_eq_some.mp hai).1
        rwa [ha] at h1
      show accLines[i]? = some ⟨epochList ai.length, ai, some ti⟩
      rw [optionTraverse_getElem? hat (range_getElem? hi)]
      exact overlayLine_of_getElem? hai hti

/-- Witness for C4 at a concrete one-session overlay call. -/
theorem plot_overlay_two_panels_witness :
    wOut4.rows.length = 1 ∧
    ([⟨[⟨[1], [5], some ("A")⟩], [], "Epoch", "Loss", "Comparision of Losses",
       true, true⟩,
      ⟨[⟨[1], [7], some ("A")⟩], [], "Epoch", "Accuracy",
       "Comparision of Accuracies", true, true⟩] : List Panel).length = 2 ∧
    (⟨[⟨[1], [5], some ("A")⟩], [], "Epoch", "Loss", "Comparision of Losses",
       true, true⟩ : Panel).lines[0]? = some ⟨[1], [5], some ("A")⟩ := by
  have h := plot_overlay_two_panels ["A"] [[5]] [[7]] "w4" (15, 10)
    none none false wOut4 rfl rfl (by decide)
  have h2 := h.2
    [⟨[⟨[1], [5], some ("A")⟩], [], "Epoch", "Loss", "Comparision of Losses",
      true, true⟩,
     ⟨[⟨[1], [7], some ("A")⟩], [], "Epoch", "Accuracy",
      "Comparision of Accuracies", true, true⟩] (by decide)
  exact ⟨h.1, h2.1,
    (h2.2.1 ⟨[⟨[1], [5], some ("A")⟩], [], "Epoch", "Loss",
       "Comparision of Losses", true, true⟩ (by decide)).2.2 0 [5] "A" rfl rfl⟩

/-- C5: for every call to `plot`, the figure is written as a PNG under the
relative directory `./plot` (created if absent — modelled by the `dir`
field of the result); the file name is the caller's stem plus `.png` in
grid mode, and in overlay mode (and only then) the fixed `_comparison`
suffix is appended to the stem first. -/
theorem plot_output_path
    (t : List String) (l a : List (List ℚ)) (fn : String) (fs : ℚ × ℚ)
    (aio : Bool) (ma be : Option (List ℚ)) (hist : Bool) (out : SavedFig)
    (h : plot t l a fn fs aio ma be hist = some out) :
    out.dir = "./plot" ∧
      out.file = (if aio then fn ++ "_comparison" else fn) ++ ".png" :=
  plot_some_file h

/-- Witness for C5 at a concrete one-session overlay call. -/
theorem plot_output_path_witness :
    wOut5.dir = "./plot" ∧
      wOut5.file = (if true then "w5" ++ "_comparison" else "w5") ++ ".png" :=
  plot_output_path ["A"] [[5]] [[7]] "w5" (15, 10) true none none false wOut5
    (by decide)

/-- C6: for every call to `plot_semi` with image-count list `c` that
produces a chart, the chart holds exactly two lines whose shared x-values
are `10*c[0], ..., 10*c[n-1]` and whose y-values are, entrywise, the final
element of the corresponding stored accuracy sequence of the
semi-supervised collection and of the supervised collection respectively;
no other element of the stored sequences is used. -/
theorem plot_semi_final_accuracy_lines
    (c : List ℚ) (fs : ℚ × ℚ) (rec : Option SemiData) (out : SavedFig)
    (h : plot_semi c fs rec = some out) (sd : SemiData) (hrec : rec = some sd) :
    out.file = "Comparison Semi-supervised and supervised NIN.png" ∧
    out.rows.length = 1 ∧
    (∀ rowP : List Panel, out.rows[0]? = some rowP → rowP.length = 1 ∧
      (∀ p : Panel, rowP[0]? = some p →
        p.lines.length = 2 ∧
        (∀ l1 : Line, p.lines[0]? = some l1 →
          l1.xs = c.map (fun x => 10 * x) ∧
          l1.label = some ("semi-supervised") ∧
          l1.ys.length = sd.semi_acc.length ∧
          (∀ (j : Nat) (s : List ℚ), sd.semi_acc[j]? = some s →
            l1.ys[j]? = s.getLast?)) ∧
        (∀ l2 : Line, p.lines[1]? = some l2 →
          l2.xs = c.map (fun x => 10 * x) ∧
          l2.label = some ("supervised NIN") ∧
          l2.ys.length = sd.semi_sup_acc.length ∧
          (∀ (j : Nat) (s : List ℚ), sd.semi_sup_acc[j]? = some s →
            l2.ys[j]? = s.getLast?)))) := by
  obtain ⟨sd2, accYs, ninYs, hsd2, hacc, hnin, -, -, rfl⟩ := plot_semi_inv h
  rw [hrec] at hsd2
  obtain rfl : sd = sd2 := by injection hsd2
  refine ⟨rfl, rfl, ?_⟩
  intro rowP hrowP
  simp only [List.getElem?_cons_zero, Option.some.injEq] at hrowP
  subst hrowP
  refine ⟨rfl, ?_⟩
  intro p hp
  simp only [List.getElem?_cons_zero, Option.some.injEq] at hp
  subst hp
  refine ⟨rfl, ?_, ?_⟩
  · intro l1 hl1
    simp only [List.getElem?_cons_zero, Option.some.injEq] at hl1
    subst hl1
    refine ⟨rfl, rfl, (optionTraverse_length hacc).symm ▸ rfl, ?_⟩
    · intro j s hjs
      show accYs[j]? = s.getLast?
      exact optionTraverse_getElem? hacc hjs
  · intro l2 hl2
    simp only [List.getElem?_cons_succ, List.getElem?_cons_zero,
      Option.some.injEq] at hl2
    subst hl2
    refine ⟨rfl, rfl, (optionTraverse_length hnin).symm ▸ rfl, ?_⟩
    · intro j s hjs
      show ninYs[j]? = s.getLast?
      exact optionTraverse_getElem? hnin hjs

/-- Witness for C6 at a concrete one-entry call. -/
theorem plot_semi_final_accuracy_lines_witness :
    wOut6.file = "Comparison Semi-supervised and supervised NIN.png" ∧
    (Line.mk [10] [3] (some ("semi-supervised"))).xs
      = ([1] : List ℚ).map (fun x => 10 * x) ∧
    (Line.mk [10] [3] (some ("semi-supervised"))).ys[0]?
      = ([2, 3] : List ℚ).getLast? := by
  have h := plot_semi_final_accuracy_lines [1] (15, 10) (some wSemi6) wOut6
    (by with_unfolding_all rfl) wSemi6 rfl
  have h3 := (h.2.2
    [⟨[⟨[10], [3], some ("semi-supervised")⟩, ⟨[10], [4], some ("supervised NIN")⟩],
      [], "Number of Images used for Training", "Accuracy",
      "Comparison Semi-supervised and supervised NIN", true, true⟩] (by decide)).2
    ⟨[⟨[10], [3], some ("semi-supervised")⟩, ⟨[10], [4], some ("supervised NIN")⟩],
     [], "Number of Images used for Training", "Accuracy",
     "Comparison Semi-supervised and supervised NIN", true, true⟩ (by decide)
  have h4 := h3.2.1 (Line.mk [10] [3] (some ("semi-supervised"))) (by decide)
  exact ⟨h.1, h4.1, h4.2.2.2 0 [2, 3] rfl⟩

/-- C7: on the concrete input `titles=["A","B"]`,
`loss=[[0.9,0.5],[0.8,0.4]]`, `accuracy=[[0.1,0.6],[0.2,0.7]]`, a
grid-mode call to `plot` produces a 2-row, 2-column figure in which row
0's left panel plots exactly the points (1,0.9),(2,0.5) and row 1's right
panel plots exactly the points (1,0.2),(2,0.7). -/
theorem plot_grid_example :
    plot ["A", "B"] [[0.9, 0.5], [0.8, 0.4]] [[0.1, 0.6], [0.2, 0.7]]
      ("example") (15, 10) false none none false
    = some ⟨[[⟨[⟨[1, 2], [0.9, 0.5], none⟩], [], "Epoch", "Loss",
               "Loss of A", true, false⟩,
              ⟨[⟨[1, 2], [0.1, 0.6], none⟩], [], "Epoch", "Accuracy",
               "Accuracy of A", true, false⟩],
             [⟨[⟨[1, 2], [0.8, 0.4], none⟩], [], "Epoch", "Loss",
               "Loss of B", true, false⟩,
              ⟨[⟨[1, 2], [0.2, 0.7], none⟩], [], "Epoch", "Accuracy",
               "Accuracy of B", true, false⟩]],
            (15, 10), "./plot", "example.png"⟩ := by
  with_unfolding_all rfl

/-- C8: grid mode with exactly one training session fails (a one-row
subplot grid yields a one-dimensional axes array, so `ax[i, 0]` raises),
hence grid mode has the unstated precondition `len(loss_lst) >= 2`; and
under the parallel-list contract (each classifier collection of the
`i`-block net holds `i` sequences), every grid-mode call in `plot_all`
supplies at least 2 sessions. -/
theorem plot_grid_single_session_fails :
    (∀ (t : List String) (l a : List (List ℚ)) (fn : String) (fs : ℚ × ℚ)
      (ma be : Option (List ℚ)) (hist : Bool), l.length = 1 →
      plot t l a fn fs false ma be hist = none) ∧
    (∀ (b3 b4 b5 : BlockNetData) (sd : SemiData) (semi : Option (List ℚ)),
      b3.clf_loss.length = 3 → b4.clf_loss.length = 4 → b5.clf_loss.length = 5 →
      b3.conv_loss.length = 3 → b4.conv_loss.length = 4 →
      b5.conv_loss.length = 5 →
      ∀ L ∈ plot_all_grid_loss_args semi b3 b4 b5 sd, 2 ≤ L.length) := by
  constructor
  · intro t l a fn fs ma be hist hl
    exact plot_single_session hl
  · intro b3 b4 b5 sd semi h1 h2 h3 h4 h5 h6 L hL
    cases semi with
    | none =>
      simp only [plot_all_grid_loss_args, List.append_nil, List.mem_cons,
        List.not_mem_nil, or_false] at hL
      rcases hL with rfl | rfl | rfl | rfl | rfl | rfl | rfl
      · simp
      · omega
      · omega
      · omega
      · omega
      · omega
      · omega
    | some ns =>
      simp only [plot_all_grid_loss_args, List.mem_append, List.mem_cons,
        List.not_mem_nil, or_false] at hL
      rcases hL with (rfl | rfl | rfl | rfl | rfl | rfl | rfl) | hL
      · simp
      · omega
      · omega
      · omega
      · omega
      · omega
      · omega
      · obtain ⟨p, -, rfl⟩ := List.mem_map.mp hL
        simp

/-- Witness for C8: a one-session grid call fails, and the first
grid-mode loss argument of `plot_all` on records satisfying the contract
has at least 2 sessions. -/
theorem plot_grid_single_session_fails_witness :
    plot ["A"] [[1]] [[1]] "w8" (15, 10) false none none false = none ∧
    2 ≤ ([[], [], []] : List (List ℚ)).length := by
  constructor
  · exact plot_grid_single_session_fails.1 ["A"] [[1]] [[1]] "w8" (15, 10)
      none none false rfl
  · exact plot_grid_single_session_fails.2 (bdEx 3) (bdEx 4) (bdEx 5) sdEx
      none rfl rfl rfl rfl rfl rfl ([[], [], []]) (by decide)

/-- C9: `plot_all` loads the `"semi-supervised"` record unconditionally,
so it fails on an absent or malformed record regardless of the `semi`
argument; and a produced figure collection contains the `plot_semi`
comparison figure if and only if `semi` is not `None`. -/
theorem plot_all_loads_semi_unconditionally
    (semi : Option (List ℚ)) (store : Store) :
    (store.semiSupervised = none → plot_all semi store = none) ∧
    (∀ out : List SavedFig, plot_all semi store = some out →
      ((∃ f ∈ out,
          f.file = "Comparison Semi-supervised and supervised NIN.png")
        ↔ semi ≠ none)) := by
  constructor
  · exact fun hsd => plot_all_of_semiRecord_none hsd
  · intro out h
    obtain ⟨b3, b4, b5, sup, sd, base, -, -, -, -, hsd, hbase, hcase⟩ :=
      plot_all_some_inv h
    rcases hcase with ⟨rfl, rfl⟩ | ⟨ns, extra, rfl, hextra, rfl⟩
    · simp only [ne_eq, not_true, iff_false]
      rintro ⟨f, hf, hfile⟩
      exact plot_all_base_files hbase f hf hfile
    · obtain ⟨rounds, fsemi, -, hfsemi, rfl⟩ := plot_all_semi_figs_inv hextra
      refine iff_of_true ⟨fsemi, ?_, ?_⟩ (by simp)
      · simp [List.mem_append]
      · obtain ⟨sd3, accYs, ninYs, -, -, -, -, -, rfl⟩ := plot_semi_inv hfsemi
        rfl

/-- Witness for C9: a store with an absent `"semi-supervised"` record
makes `plot_all` fail even with `semi = None`. -/
theorem plot_all_loads_semi_unconditionally_witness :
    plot_all none storeNoSemi = none :=
  (plot_all_loads_semi_unconditionally none storeNoSemi).1 rfl

/-- C10: a call to `plot` leaves the caller-visible argument objects
(title, loss, accuracy, marker lists) unchanged: the source only reads
them, and the overlay-mode `filename` suffix is a local rebinding, so the
state-passing view of the call returns the argument state as it was. -/
theorem plot_args_unchanged (a : PlotArgs) (fn : String) (fs : ℚ × ℚ)
    (aio hist : Bool) :
    (plotCall a fn fs aio hist).2 = a ∧
    (plotCall a fn fs aio hist).1
      = plot a.title_lst a.loss_lst a.accuracy_lst fn fs aio a.max_accuracy
          a.best_epoch hist :=
  ⟨rfl, rfl⟩

end PlotPy
